import Mathlib

/-!
Shallow embedding of the findings-to-report pipeline of `app.py`
(`extract_compliance_details` and `generate_pdf`), together with proofs of
the specified properties.

The raw JSON findings record is modelled structurally: each field the code
reads with `.get(key, default)` becomes an `Option`-typed field, `None`
standing for a missing key, and the default is applied with `Option.getD`
exactly where the source applies it.  The Python `IndexError` raised by
`json_data[0]` on an empty list is modelled as the `EmptyRecord` error of
an `Except` result.
-/

namespace S3Aws

/-- One entry of `classificationDetails.result.sensitiveData`: the code reads
only `data.get("category", "Unknown")`. -/
structure SensitiveDataItem where
  category : Option String
deriving Repr, DecidableEq, Inhabited

/-- The fields of the first scan-result object that
`extract_compliance_details` reads, each optional with the default applied
at the read site.  `severityDescription` stands for the nested lookup
`report.get("severity", \x7b\x7d).get("description", "Unknown")`:
`none` covers both a missing `severity` object and a missing
`description` key. -/
structure ReportElem where
  severityDescription : Option String
  category : Option String
  count : Option Int
  description : Option String
  updatedAt : Option String
  sensitiveData : Option (List SensitiveDataItem)
deriving Repr, DecidableEq

/-- Risk tiers used by the risk classifier and the severity seeding. -/
inductive RiskTier where
  | High
  | Medium
  | Low
deriving Repr, DecidableEq, Inhabited

/-- The string the code stores for a tier (the Python code works with the
strings "High", "Medium", "Low" directly). -/
def RiskTier.str : RiskTier → String
  | .High => "High"
  | .Medium => "Medium"
  | .Low => "Low"

/-- The mutable dictionary `risk_counts = \x7b"High": 0, "Medium": 0, "Low": 0\x7d`. -/
structure TierCounts where
  high : Nat
  medium : Nat
  low : Nat
deriving Repr, DecidableEq

/-- Increment, modelling `risk_counts[risk] += 1` for the bucket named by
the tier. -/
def TierCounts.incr : TierCounts → RiskTier → TierCounts
  | ⟨h, m, l⟩, .High => ⟨h + 1, m, l⟩
  | ⟨h, m, l⟩, .Medium => ⟨h, m + 1, l⟩
  | ⟨h, m, l⟩, .Low => ⟨h, m, l + 1⟩

/-- Total of the three buckets. -/
def TierCounts.total (c : TierCounts) : Nat := c.high + c.medium + c.low

/-- The risk classifier inside the per-item loop of
`extract_compliance_details` (lines 140-148 of `app.py`): maps a
sensitive-data category string to a tier and an action string.
Python string membership `category in [...]` becomes list membership. -/
def classify (category : String) : RiskTier × String :=
  if category ∈ ["FINANCIAL", "PERSONAL_HEALTH", "SSN"] then
    (RiskTier.High, "Immediately protect " ++ category ++ " information")
  else if category ∈ ["EMAIL", "PHONE", "ADDRESS"] then
    (RiskTier.Medium, "Review and secure " ++ category ++ " data handling")
  else
    (RiskTier.Low, "Maintain current data protection measures")

/-- A derived sensitivity entry, as appended by the loop:
`\x7b"type": category, "visibility": "Partially Visible", "risk": risk,
"action": action\x7d`. -/
structure Sensitivity where
  type : String
  visibility : String
  risk : RiskTier
  action : String
deriving Repr, DecidableEq, Inhabited

/-- The body of one loop iteration, as far as it builds the appended entry:
read the item category with default "Unknown", classify it, and build the
sensitivity record. -/
def mkSensitivity (data : SensitiveDataItem) : Sensitivity :=
  let category := data.category.getD "Unknown"
  let rc := classify category
  ⟨category, "Partially Visible", rc.1, rc.2⟩

/-- The per-item loop (lines 136-157): for each item in order, classify it,
increment the matching bucket of the running counts, and append the
sensitivity entry in input order. -/
def categorize : List SensitiveDataItem → TierCounts → TierCounts × List Sensitivity
  | [], counts => (counts, [])
  | data :: rest, counts =>
    let s := mkSensitivity data
    let res := categorize rest (counts.incr s.risk)
    (res.1, s :: res.2)

/-- Lowercasing, modelling Python `str.lower()` on the ASCII severity
strings at hand: the per-character case map over the string's characters
(the same mapping `String.toLower` performs, written so the kernel can
evaluate it). -/
def strLower (s : String) : String := String.mk (s.data.map Char.toLower)

/-- Severity seeding (lines 123-128): lowercase comparison selects exactly
one bucket to set to 1. -/
def seedCounts (severity : String) : TierCounts :=
  if strLower severity = "high" then ⟨1, 0, 0⟩
  else if strLower severity = "medium" then ⟨0, 1, 0⟩
  else ⟨0, 0, 1⟩

/-- The assembled compliance-details dictionary (lines 160-181), with its
fields in the fixed insertion order of the source dictionary. -/
structure ComplianceReport where
  riskLevel : String
  category : String
  findingsCount : Int
  description : String
  lastUpdated : String
  highRisk : Nat
  mediumRisk : Nat
  lowRisk : Nat
  sensitivities : List Sensitivity
  dataProtection : Nat
  accessControl : Nat
  securityMonitoring : Nat
  privacy : Nat
  encryption : Nat
deriving Repr, DecidableEq

/-- The non-empty branch of `extract_compliance_details`, operating on the
first element of the record. -/
def buildReport (report : ReportElem) : ComplianceReport :=
  let severity := report.severityDescription.getD "Unknown"
  let sensitive_data := report.sensitiveData.getD []
  let res := categorize sensitive_data (seedCounts severity)
  let risk_counts := res.1
  let sensitivities := res.2
  { riskLevel := severity
    category := report.category.getD "Unknown"
    findingsCount := report.count.getD 0
    description := report.description.getD "No description available"
    lastUpdated := report.updatedAt.getD "Unknown"
    highRisk := risk_counts.high
    mediumRisk := risk_counts.medium
    lowRisk := risk_counts.low
    sensitivities := sensitivities
    dataProtection := min 100 (risk_counts.high * 30 + 50)
    accessControl := min 100 (risk_counts.medium * 20 + 60)
    securityMonitoring := min 100 (risk_counts.low * 10 + 70)
    privacy := min 100 (sensitive_data.length * 15 + 55)
    encryption := min 100 (risk_counts.high * 25 + 45) }

/-- Failure modes of extraction: `json_data[0]` on an empty list raises,
which the spec names `EmptyRecord`. -/
inductive ExtractError where
  | EmptyRecord
deriving Repr, DecidableEq

/-- Extraction, `extract_compliance_details` (lines 107-183): fails on an
empty record, otherwise consumes only element 0. -/
def extract_compliance_details (json_data : List ReportElem) :
    Except ExtractError ComplianceReport :=
  match json_data with
  | [] => Except.error ExtractError.EmptyRecord
  | report :: _ => Except.ok (buildReport report)

/-! ### The renderer `generate_pdf` (lines 185-209) -/

/-- A single ASCII apostrophe, used by the Python `repr` of a string. -/
def sq : String := String.singleton (Char.ofNat 39)

/-- A string in Python `repr` quoting (the strings at hand contain no
apostrophe, so `repr` wraps them in plain single quotes). -/
def pyQuoted (s : String) : String := sq ++ s ++ sq

/-- Python `str()` of a sensitivity dictionary, as interpolated by
`f"- \x7bsensitivity\x7d"`: the flat key:value dump of the four entries in
insertion order. -/
def sensRepr (s : Sensitivity) : String :=
  "\x7b" ++ pyQuoted "type" ++ ": " ++ pyQuoted s.type ++ ", "
  ++ pyQuoted "visibility" ++ ": " ++ pyQuoted s.visibility ++ ", "
  ++ pyQuoted "risk" ++ ": " ++ pyQuoted s.risk.str ++ ", "
  ++ pyQuoted "action" ++ ": " ++ pyQuoted s.action ++ "\x7d"

/-- A dictionary value, as iterated by `compliance_details.items()`. -/
inductive FieldVal where
  | str (s : String)
  | int (n : Int)
  | nat (n : Nat)
  | sens (l : List Sensitivity)
deriving Repr, DecidableEq

/-- Python `str()` of a dictionary value as interpolated into
`f"\x7bkey\x7d: \x7bvalue\x7d"`. -/
def FieldVal.text : FieldVal → String
  | .str s => s
  | .int n => toString n
  | .nat n => toString n
  | .sens l => "[" ++ String.intercalate ", " (l.map sensRepr) ++ "]"

/-- The key/value pairs of the compliance-details dictionary in its fixed
insertion order, as `.items()` yields them. -/
def reportItems (r : ComplianceReport) : List (String × FieldVal) :=
  [("Risk Level", FieldVal.str r.riskLevel),
   ("Category", FieldVal.str r.category),
   ("Findings Count", FieldVal.int r.findingsCount),
   ("Description", FieldVal.str r.description),
   ("Last Updated", FieldVal.str r.lastUpdated),
   ("High Risk", FieldVal.nat r.highRisk),
   ("Medium Risk", FieldVal.nat r.mediumRisk),
   ("Low Risk", FieldVal.nat r.lowRisk),
   ("Sensitivities", FieldVal.sens r.sensitivities),
   ("Data Protection", FieldVal.nat r.dataProtection),
   ("Access Control", FieldVal.nat r.accessControl),
   ("Security Monitoring", FieldVal.nat r.securityMonitoring),
   ("Privacy", FieldVal.nat r.privacy),
   ("Encryption", FieldVal.nat r.encryption)]

/-- One `drawString(x, y, text)` call on the canvas. -/
structure DrawCmd where
  x : Int
  y : Int
  text : String
deriving Repr, DecidableEq

/-- The separator line `"-" * 50`. -/
def sepLine : String := String.mk (List.replicate 50 (Char.ofNat 45))

/-- The inner loop over sensitivities: one indented line per entry,
decrementing the cursor by 20 per line. -/
def renderSens : List Sensitivity → Int → List DrawCmd
  | [], _ => []
  | s :: rest, y => ⟨120, y, "- " ++ sensRepr s⟩ :: renderSens rest (y - 20)

/-- The main rendering loop over `compliance_details.items()`.  The
`Sensitivities` entry (the only one holding a list value) emits its label
line, then the indented entry lines, leaving the cursor 20·(1+n) lower;
every other entry emits one `key: value` line and decrements by 20. -/
def renderFields : List (String × FieldVal) → Int → List DrawCmd
  | [], _ => []
  | (key, FieldVal.sens l) :: rest, y =>
    ⟨100, y, key ++ ":"⟩ ::
      (renderSens l (y - 20) ++ renderFields rest (y - 20 - 20 * (l.length : Int)))
  | (key, v) :: rest, y =>
    ⟨100, y, key ++ ": " ++ v.text⟩ :: renderFields rest (y - 20)

/-- The renderer `generate_pdf`: title at (100, 750), separator at
(100, 730), then the field loop from cursor 700.  The emitted draw-command
list is the document's content. -/
def generate_pdf (r : ComplianceReport) : List DrawCmd :=
  ⟨100, 750, "Compliance Report"⟩ :: ⟨100, 730, sepLine⟩ ::
    renderFields (reportItems r) 700

/-! ### Helper lemmas about the extraction loop -/

lemma TierCounts.total_incr (c : TierCounts) (t : RiskTier) :
    (c.incr t).total = c.total + 1 := by
  cases c
  cases t <;> simp [TierCounts.incr, TierCounts.total] <;> omega

lemma categorize_fst_total (l : List SensitiveDataItem) (c : TierCounts) :
    ((categorize l c).1).total = c.total + l.length := by
  induction l generalizing c with
  | nil => simp [categorize]
  | cons d rest ih =>
    simp only [categorize, List.length_cons]
    rw [ih, TierCounts.total_incr]
    omega

lemma categorize_snd (l : List SensitiveDataItem) (c : TierCounts) :
    (categorize l c).2 = l.map mkSensitivity := by
  induction l generalizing c with
  | nil => simp [categorize]
  | cons d rest ih => simp [categorize, ih]

lemma seedCounts_total (s : String) : (seedCounts s).total = 1 := by
  unfold seedCounts
  split
  · rfl
  split <;> rfl

@[simp] lemma mkSensitivity_type (d : SensitiveDataItem) :
    (mkSensitivity d).type = d.category.getD "Unknown" := rfl

/-! ### Claim theorems -/

/-- C1: the risk classifier is total on category strings; FINANCIAL,
PERSONAL_HEALTH and SSN map to High with the protect-action, EMAIL, PHONE
and ADDRESS map to Medium with the review-action, and every other category
string (case-sensitive exact match) maps to Low with the constant
maintain-action. -/
theorem classify_rule_table :
    (∀ c, c ∈ ["FINANCIAL", "PERSONAL_HEALTH", "SSN"] →
      classify c = (RiskTier.High, "Immediately protect " ++ c ++ " information")) ∧
    (∀ c, c ∈ ["EMAIL", "PHONE", "ADDRESS"] →
      classify c = (RiskTier.Medium, "Review and secure " ++ c ++ " data handling")) ∧
    (∀ c, c ∉ ["FINANCIAL", "PERSONAL_HEALTH", "SSN"] →
      c ∉ ["EMAIL", "PHONE", "ADDRESS"] →
      classify c = (RiskTier.Low, "Maintain current data protection measures")) := by
  refine ⟨fun c hc => ?_, fun c hc => ?_, fun c h1 h2 => ?_⟩
  · simp [classify, hc]
  · rcases (by simpa using hc : c = "EMAIL" ∨ c = "PHONE" ∨ c = "ADDRESS") with h | h | h <;>
      subst h <;> rfl
  · simp [classify, h1, h2]

/-- Witness for C1 at one concrete category from each row of the table. -/
theorem classify_rule_table_witness :
    classify "SSN" = (RiskTier.High, "Immediately protect " ++ "SSN" ++ " information") ∧
    classify "EMAIL" = (RiskTier.Medium, "Review and secure " ++ "EMAIL" ++ " data handling") ∧
    classify "NAME" = (RiskTier.Low, "Maintain current data protection measures") :=
  ⟨classify_rule_table.1 "SSN" (by decide),
   classify_rule_table.2.1 "EMAIL" (by decide),
   classify_rule_table.2.2 "NAME" (by decide) (by decide)⟩

/-- C2: on any record with at least one element, the three tier counts of
the extracted report sum to 1 (the severity seed) plus the number of
sensitive-data items of the first element. -/
theorem tier_counts_sum (rec : ReportElem) (rest : List ReportElem)
    (r : ComplianceReport)
    (h : extract_compliance_details (rec :: rest) = Except.ok r) :
    r.highRisk + r.mediumRisk + r.lowRisk = 1 + (rec.sensitiveData.getD []).length := by
  have hr : r = buildReport rec := by
    simpa [extract_compliance_details] using h.symm
  subst hr
  have htot := categorize_fst_total (rec.sensitiveData.getD [])
    (seedCounts (rec.severityDescription.getD "Unknown"))
  rw [seedCounts_total] at htot
  simpa [buildReport, TierCounts.total, Nat.add_comm] using htot

/-- A concrete findings element: severity High, categories SSN and EMAIL. -/
def sampleElem : ReportElem :=
  ⟨some "High", some "PII", some 5, none, none, some [⟨some "SSN"⟩, ⟨some "EMAIL"⟩]⟩

/-- Witness for C2 on `sampleElem`: 1 + 2 + 0 = 1 + 2. -/
theorem tier_counts_sum_witness :
    extract_compliance_details [sampleElem] = Except.ok (buildReport sampleElem) ∧
    (buildReport sampleElem).highRisk + (buildReport sampleElem).mediumRisk +
      (buildReport sampleElem).lowRisk = 1 + (sampleElem.sensitiveData.getD []).length :=
  ⟨rfl, tier_counts_sum sampleElem [] (buildReport sampleElem) rfl⟩

/-- C3: severity seeding is case-insensitive while display is
case-preserving.  Writing s for the severity description of the first
element (default "Unknown"): the report's Risk Level equals s verbatim; the
tier counts of the report are the per-item counts accumulated on top of
`seedCounts s`; and `seedCounts` seeds High when lowercase s is "high",
Medium when it is "medium", and Low otherwise (including the default
"Unknown"). -/
theorem severity_seeding (rec : ReportElem) (rest : List ReportElem)
    (r : ComplianceReport)
    (h : extract_compliance_details (rec :: rest) = Except.ok r) :
    r.riskLevel = rec.severityDescription.getD "Unknown" ∧
    TierCounts.mk r.highRisk r.mediumRisk r.lowRisk =
      (categorize (rec.sensitiveData.getD [])
        (seedCounts (rec.severityDescription.getD "Unknown"))).1 ∧
    (strLower (rec.severityDescription.getD "Unknown") = "high" →
      seedCounts (rec.severityDescription.getD "Unknown") = ⟨1, 0, 0⟩) ∧
    (strLower (rec.severityDescription.getD "Unknown") = "medium" →
      seedCounts (rec.severityDescription.getD "Unknown") = ⟨0, 1, 0⟩) ∧
    (strLower (rec.severityDescription.getD "Unknown") ≠ "high" →
      strLower (rec.severityDescription.getD "Unknown") ≠ "medium" →
      seedCounts (rec.severityDescription.getD "Unknown") = ⟨0, 0, 1⟩) := by
  have hr : r = buildReport rec := by
    simpa [extract_compliance_details] using h.symm
  subst hr
  refine ⟨rfl, rfl, fun hh => ?_, fun hm => ?_, fun hh hm => ?_⟩
  · simp [seedCounts, hh]
  · simp [seedCounts, hm]
  · simp [seedCounts, hh, hm]

/-- A findings element whose severity description is the uppercase "HIGH". -/
def elemHIGH : ReportElem := ⟨some "HIGH", none, none, none, none, none⟩

/-- A findings element whose severity description is "Medium". -/
def elemMedium : ReportElem := ⟨some "Medium", none, none, none, none, none⟩

/-- A findings element with no severity at all (default "Unknown"). -/
def elemNoSeverity : ReportElem := ⟨none, none, none, none, none, none⟩

/-- Witness for C3: "HIGH" seeds High yet displays as "HIGH"; "Medium"
seeds Medium; the missing-severity default "Unknown" seeds Low. -/
theorem severity_seeding_witness :
    (buildReport elemHIGH).riskLevel = "HIGH" ∧
    seedCounts "HIGH" = ⟨1, 0, 0⟩ ∧
    seedCounts "Medium" = ⟨0, 1, 0⟩ ∧
    seedCounts "Unknown" = ⟨0, 0, 1⟩ :=
  ⟨(severity_seeding elemHIGH [] (buildReport elemHIGH) rfl).1,
   (severity_seeding elemHIGH [] (buildReport elemHIGH) rfl).2.2.1 (by decide),
   (severity_seeding elemMedium [] (buildReport elemMedium) rfl).2.2.2.1 (by decide),
   (severity_seeding elemNoSeverity [] (buildReport elemNoSeverity) rfl).2.2.2.2
     (by decide) (by decide)⟩

/-- C4: each composite metric of an extracted report equals its clamped
formula over the report's own tier counts and sensitivity count, and each
of the five score formulas is bounded by 100 (being ℕ-valued they are
integers that are at least 0) for every input magnitude. -/
theorem metric_formulas :
    (∀ (rec : ReportElem) (rest : List ReportElem) (r : ComplianceReport),
      extract_compliance_details (rec :: rest) = Except.ok r →
      r.dataProtection = min 100 (r.highRisk * 30 + 50) ∧
      r.accessControl = min 100 (r.mediumRisk * 20 + 60) ∧
      r.securityMonitoring = min 100 (r.lowRisk * 10 + 70) ∧
      r.privacy = min 100 (r.sensitivities.length * 15 + 55) ∧
      r.encryption = min 100 (r.highRisk * 25 + 45)) ∧
    (∀ r : ComplianceReport, ∀ rec rest,
      extract_compliance_details (rec :: rest) = Except.ok r →
      r.dataProtection ≤ 100 ∧ r.accessControl ≤ 100 ∧
      r.securityMonitoring ≤ 100 ∧ r.privacy ≤ 100 ∧ r.encryption ≤ 100) := by
  have key : ∀ (rec : ReportElem) (rest : List ReportElem) (r : ComplianceReport),
      extract_compliance_details (rec :: rest) = Except.ok r →
      r = buildReport rec := by
    intro rec rest r h
    simpa [extract_compliance_details] using h.symm
  constructor
  · intro rec rest r h
    have hr := key rec rest r h
    subst hr
    have hlen : (buildReport rec).sensitivities.length =
        (rec.sensitiveData.getD []).length := by
      simp [buildReport, categorize_snd]
    refine ⟨rfl, rfl, rfl, ?_, rfl⟩
    rw [hlen]
    rfl
  · intro r rec rest h
    have hr := key rec rest r h
    subst hr
    refine ⟨?_, ?_, ?_, ?_, ?_⟩ <;> simp [buildReport]

/-- Witness for C4 on `sampleElem` (two High items on a High severity):
Data Protection clamps at 100 = min 100 (2·30+50). -/
theorem metric_formulas_witness :
    ((buildReport sampleElem).dataProtection =
      min 100 ((buildReport sampleElem).highRisk * 30 + 50) ∧
     (buildReport sampleElem).accessControl =
      min 100 ((buildReport sampleElem).mediumRisk * 20 + 60) ∧
     (buildReport sampleElem).securityMonitoring =
      min 100 ((buildReport sampleElem).lowRisk * 10 + 70) ∧
     (buildReport sampleElem).privacy =
      min 100 ((buildReport sampleElem).sensitivities.length * 15 + 55) ∧
     (buildReport sampleElem).encryption =
      min 100 ((buildReport sampleElem).highRisk * 25 + 45)) ∧
    (buildReport sampleElem).dataProtection = 100 :=
  ⟨metric_formulas.1 sampleElem [] (buildReport sampleElem) rfl, by decide⟩

/-- C5: the extracted Sensitivities sequence has the same length and order
as the input sensitive-data sequence of the first element — it is its
elementwise image under the loop body, and the i-th output type is the i-th
input category (default "Unknown"); no sorting, filtering or
deduplication. -/
theorem sensitivities_stable (rec : ReportElem) (rest : List ReportElem)
    (r : ComplianceReport)
    (h : extract_compliance_details (rec :: rest) = Except.ok r) :
    r.sensitivities.length = (rec.sensitiveData.getD []).length ∧
    r.sensitivities = (rec.sensitiveData.getD []).map mkSensitivity ∧
    (∀ i, i < r.sensitivities.length →
      (r.sensitivities.getD i default).type =
        ((rec.sensitiveData.getD []).getD i default).category.getD "Unknown") := by
  have hr : r = buildReport rec := by
    simpa [extract_compliance_details] using h.symm
  subst hr
  have hmap : (buildReport rec).sensitivities =
      (rec.sensitiveData.getD []).map mkSensitivity := by
    simp [buildReport, categorize_snd]
  refine ⟨by rw [hmap]; simp, hmap, fun i hi => ?_⟩
  rw [hmap] at hi ⊢
  have hi' : i < (rec.sensitiveData.getD []).length := by simpa using hi
  simp [List.getD, List.getElem?_map, List.getElem?_eq_getElem hi']

/-- Witness for C5 on `sampleElem`: both items survive, in order, the first
typed "SSN" and the second "EMAIL". -/
theorem sensitivities_stable_witness :
    (buildReport sampleElem).sensitivities.length =
      (sampleElem.sensitiveData.getD []).length ∧
    ((buildReport sampleElem).sensitivities.getD 0 default).type = "SSN" ∧
    ((buildReport sampleElem).sensitivities.getD 1 default).type = "EMAIL" :=
  ⟨(sensitivities_stable sampleElem [] (buildReport sampleElem) rfl).1,
   (sensitivities_stable sampleElem [] (buildReport sampleElem) rfl).2.2 0 (by decide),
   (sensitivities_stable sampleElem [] (buildReport sampleElem) rfl).2.2 1 (by decide)⟩

/-- C6: on the empty findings record extraction fails with EmptyRecord; the
`Except.error` result carries no report value, so no partial report is
constructed. -/
theorem empty_record_fails :
    extract_compliance_details [] = Except.error ExtractError.EmptyRecord := rfl

/-- C7: extraction reads only element 0 — for any shared first element, any
two tails (of any lengths and contents) give identical results. -/
theorem tail_noninterference (first : ReportElem)
    (rest₁ rest₂ : List ReportElem) :
    extract_compliance_details (first :: rest₁) =
      extract_compliance_details (first :: rest₂) := rfl

/-- C8: on any non-empty record extraction succeeds (never raises), and
every missing field degrades to its documented default: severity
description to "Unknown", category to "Unknown", count to 0, description to
"No description available", updatedAt to "Unknown", the sensitive-data
sequence to empty, and a missing item category to type "Unknown". -/
theorem silent_defaults (rec : ReportElem) (rest : List ReportElem) :
    extract_compliance_details (rec :: rest) = Except.ok (buildReport rec) ∧
    (rec.severityDescription = none → (buildReport rec).riskLevel = "Unknown") ∧
    (rec.category = none → (buildReport rec).category = "Unknown") ∧
    (rec.count = none → (buildReport rec).findingsCount = 0) ∧
    (rec.description = none →
      (buildReport rec).description = "No description available") ∧
    (rec.updatedAt = none → (buildReport rec).lastUpdated = "Unknown") ∧
    (rec.sensitiveData = none → (buildReport rec).sensitivities = []) ∧
    (∀ item ∈ rec.sensitiveData.getD [], item.category = none →
      (mkSensitivity item).type = "Unknown") := by
  refine ⟨rfl, fun h => ?_, fun h => ?_, fun h => ?_, fun h => ?_, fun h => ?_,
    fun h => ?_, fun item _ h => ?_⟩ <;>
    simp [buildReport, h, categorize]

/-- A findings element holding one sensitive-data item with no category. -/
def elemItemNoCategory : ReportElem :=
  ⟨none, none, none, none, none, some [⟨none⟩]⟩

/-- Witness for C8: the all-missing element extracts successfully with every
default, and an item without category gets type "Unknown". -/
theorem silent_defaults_witness :
    extract_compliance_details [elemNoSeverity] =
      Except.ok (buildReport elemNoSeverity) ∧
    (buildReport elemNoSeverity).riskLevel = "Unknown" ∧
    (buildReport elemNoSeverity).category = "Unknown" ∧
    (buildReport elemNoSeverity).findingsCount = 0 ∧
    (buildReport elemNoSeverity).description = "No description available" ∧
    (buildReport elemNoSeverity).lastUpdated = "Unknown" ∧
    (buildReport elemNoSeverity).sensitivities = [] ∧
    (mkSensitivity ⟨none⟩).type = "Unknown" :=
  ⟨(silent_defaults elemNoSeverity []).1,
   (silent_defaults elemNoSeverity []).2.1 rfl,
   (silent_defaults elemNoSeverity []).2.2.1 rfl,
   (silent_defaults elemNoSeverity []).2.2.2.1 rfl,
   (silent_defaults elemNoSeverity []).2.2.2.2.1 rfl,
   (silent_defaults elemNoSeverity []).2.2.2.2.2.1 rfl,
   (silent_defaults elemNoSeverity []).2.2.2.2.2.2.1 rfl,
   (silent_defaults elemItemNoCategory []).2.2.2.2.2.2.2 ⟨none⟩ (by simp [elemItemNoCategory]) rfl⟩

/-! ### The rendered layout, written from the layout contract -/

/-- The document layout as the rendering contract states it: title line,
separator line, then one line per field at left margin 100 from top offset
700, stepping 20 points down per line, the fields in the fixed key order;
the Sensitivities field contributes its label line plus one indented
(margin 120) line per entry in sequence order, each a flat key:value dump;
the five metric lines follow, shifted down by the entry count. -/
def pageLayout (r : ComplianceReport) : List DrawCmd :=
  [⟨100, 750, "Compliance Report"⟩,
   ⟨100, 730, sepLine⟩,
   ⟨100, 700, "Risk Level: " ++ r.riskLevel⟩,
   ⟨100, 680, "Category: " ++ r.category⟩,
   ⟨100, 660, "Findings Count: " ++ toString r.findingsCount⟩,
   ⟨100, 640, "Description: " ++ r.description⟩,
   ⟨100, 620, "Last Updated: " ++ r.lastUpdated⟩,
   ⟨100, 600, "High Risk: " ++ toString r.highRisk⟩,
   ⟨100, 580, "Medium Risk: " ++ toString r.mediumRisk⟩,
   ⟨100, 560, "Low Risk: " ++ toString r.lowRisk⟩,
   ⟨100, 540, "Sensitivities:"⟩] ++
  List.zipWith (fun j s => ⟨120, 520 - 20 * (j : Int), "- " ++ sensRepr s⟩)
    (List.range r.sensitivities.length) r.sensitivities ++
  [⟨100, 520 - 20 * (r.sensitivities.length : Int),
      "Data Protection: " ++ toString r.dataProtection⟩,
   ⟨100, 500 - 20 * (r.sensitivities.length : Int),
      "Access Control: " ++ toString r.accessControl⟩,
   ⟨100, 480 - 20 * (r.sensitivities.length : Int),
      "Security Monitoring: " ++ toString r.securityMonitoring⟩,
   ⟨100, 460 - 20 * (r.sensitivities.length : Int),
      "Privacy: " ++ toString r.privacy⟩,
   ⟨100, 440 - 20 * (r.sensitivities.length : Int),
      "Encryption: " ++ toString r.encryption⟩]

lemma renderSens_eq (l : List Sensitivity) (y : Int) :
    renderSens l y =
      List.zipWith (fun j s => ⟨120, y - 20 * (j : Int), "- " ++ sensRepr s⟩)
        (List.range l.length) l := by
  induction l generalizing y with
  | nil => simp [renderSens]
  | cons s rest ih =>
    rw [List.length_cons, List.range_succ_eq_map]
    simp only [renderSens, List.zipWith_cons_cons, List.zipWith_map_left]
    rw [ih]
    refine congrArg₂ List.cons ?_ ?_
    · norm_num
    · have hf : (fun (j : Nat) (t : Sensitivity) =>
          (⟨120, y - 20 - 20 * (j : Int), "- " ++ sensRepr t⟩ : DrawCmd)) =
          (fun (a : Nat) (b : Sensitivity) =>
          (⟨120, y - 20 * ((Nat.succ a : Nat) : Int), "- " ++ sensRepr b⟩ : DrawCmd)) := by
        funext a b
        congr 1
        push_cast
        ring
      rw [hf]

lemma generate_pdf_eq_pageLayout (r : ComplianceReport) :
    generate_pdf r = pageLayout r := by
  simp only [generate_pdf, pageLayout, reportItems, renderFields, FieldVal.text,
    renderSens_eq, List.cons_append, List.nil_append]
  norm_num
  ring_nf
  repeat' apply And.intro
  all_goals trivial

/-- C9: the renderer emits the title line, then the separator, then one
line per field at left margin 100 stepping the cursor down 20 per line, the
fields in the fixed key order Risk Level, Category, Findings Count,
Description, Last Updated, High Risk, Medium Risk, Low Risk, Sensitivities,
Data Protection, Access Control, Security Monitoring, Privacy, Encryption;
the Sensitivities field emits its label line followed by one indented line
per entry in sequence order, each a flat key:value dump. -/
theorem render_fixed_layout (r : ComplianceReport) :
    generate_pdf r = pageLayout r :=
  generate_pdf_eq_pageLayout r

/-- C10: rendering is total and never signals overflow: every report —
whatever the size of its Sensitivities list — renders to exactly 16 + n
draw commands (n the entry count, so nothing is truncated and no page break
occurs), and as soon as the list is long enough to overrun the page the
cursor keeps decrementing into negative y coordinates. -/
theorem render_no_overflow (r : ComplianceReport) :
    (generate_pdf r).length = 16 + r.sensitivities.length ∧
    (23 ≤ r.sensitivities.length → ∃ cmd ∈ generate_pdf r, cmd.y < 0) := by
  constructor
  · rw [generate_pdf_eq_pageLayout]
    simp [pageLayout]
    omega
  · intro h
    refine ⟨⟨100, 440 - 20 * (r.sensitivities.length : Int),
      "Encryption: " ++ toString r.encryption⟩, ?_, ?_⟩
    · rw [generate_pdf_eq_pageLayout]
      simp [pageLayout]
    · show (440 : Int) - 20 * (r.sensitivities.length : Int) < 0
      have h23 : (23 : Int) ≤ (r.sensitivities.length : Int) := by exact_mod_cast h
      omega

/-- One low-tier sensitivity entry used to overfill a page. -/
def overflowEntry : Sensitivity :=
  ⟨"OTHER", "Partially Visible", RiskTier.Low,
   "Maintain current data protection measures"⟩

/-- A report whose 23 sensitivity entries push the content past one page. -/
def overflowReport : ComplianceReport :=
  { riskLevel := "High"
    category := "PII"
    findingsCount := 5
    description := "No description available"
    lastUpdated := "Unknown"
    highRisk := 1
    mediumRisk := 0
    lowRisk := 23
    sensitivities := List.replicate 23 overflowEntry
    dataProtection := 80
    accessControl := 60
    securityMonitoring := 100
    privacy := 100
    encryption := 70 }

/-- Witness for C10: on the 23-entry report some line is drawn at a
negative y coordinate. -/
theorem render_no_overflow_witness :
    ∃ cmd ∈ generate_pdf overflowReport, cmd.y < 0 :=
  (render_no_overflow overflowReport).2 (by simp [overflowReport])

end S3Aws
